import Mathlib

/-!
# The UI entry points of the flow controller (src/ui/ui.c)

The file ui.c holds three entry points, each without arguments and without a
return value:

* ui_reset, whose body is empty;
* ui_init, whose body is the two statements flow_init(); flow_main_menu();
* ui_timer_event, whose body is the single statement flow_timer_event();

The three functions they call are declared in the nano/flow headers and are
defined outside ui.c.  The embedding therefore threads an explicit state
through the entry points and takes the three callees as the fields of a
FlowApi value.  Next to the state of the flow engine a Machine keeps the list
of callee invocations made so far, so that statements of the form
"invokes exactly these callees in this order" can be written down.

The second half of the definitions models the flow engine itself (dispatcher,
transition protocol, the five flows) from the specification, since its code
is not in ui.c.
-/

namespace Ui

/-- The callees of ui.c, one constructor per function called from it. -/
inductive Call
  | flow_init
  | flow_main_menu
  | flow_timer_event
  deriving DecidableEq, Repr

/-- The flow engine as ui.c sees it: three procedures acting on the engine
state, which is of type σ. -/
structure FlowApi (σ : Type) where
  flow_init : σ → σ
  flow_main_menu : σ → σ
  flow_timer_event : σ → σ

/-- The state threaded through the entry points: the state of the flow engine
and the record of the callee invocations performed so far, oldest first. -/
structure Machine (σ : Type) where
  flow : σ
  calls : List Call

/-- The statement flow_init(); -/
def call_flow_init {σ : Type} (F : FlowApi σ) (m : Machine σ) : Machine σ :=
  { flow := F.flow_init m.flow, calls := m.calls ++ [Call.flow_init] }

/-- The statement flow_main_menu(); -/
def call_flow_main_menu {σ : Type} (F : FlowApi σ) (m : Machine σ) : Machine σ :=
  { flow := F.flow_main_menu m.flow, calls := m.calls ++ [Call.flow_main_menu] }

/-- The statement flow_timer_event(); -/
def call_flow_timer_event {σ : Type} (F : FlowApi σ) (m : Machine σ) : Machine σ :=
  { flow := F.flow_timer_event m.flow, calls := m.calls ++ [Call.flow_timer_event] }

/-- The function ui_reset of ui.c: its body is empty. -/
def ui_reset {σ : Type} (_F : FlowApi σ) (m : Machine σ) : Machine σ :=
  m

/-- The function ui_init of ui.c: flow_init(); flow_main_menu(); -/
def ui_init {σ : Type} (F : FlowApi σ) (m : Machine σ) : Machine σ :=
  call_flow_main_menu F (call_flow_init F m)

/-- The function ui_timer_event of ui.c: flow_timer_event(); -/
def ui_timer_event {σ : Type} (F : FlowApi σ) (m : Machine σ) : Machine σ :=
  call_flow_timer_event F m

end Ui

namespace FlowSpec

/-- Modelled from the spec: the enumerated identity of a flow (section 3,
FlowId); the flow table itself lives in the nano/flow files. -/
inductive FlowId
  | MainMenu
  | GeneratingAddresses
  | Signing
  | UserConfirm
  | SignedSuccessfully
  deriving DecidableEq, Repr

/-- Modelled from the spec: the closed set of user actions of the input call
(section 6); the enumeration belongs to the Input Source. -/
inductive Event
  | Up
  | Down
  | Confirm
  | Cancel
  deriving DecidableEq, Repr

/-- Modelled from the spec: the optional data carried by a Transition Request
(section 3): a transaction, a derived address set, an error code, or the
result of a signing operation.  The data themselves are natural numbers. -/
inductive Payload
  | transaction (tx : Nat)
  | addresses (set : Nat)
  | error (code : Nat)
  | signature (sig : Nat)
  deriving DecidableEq, Repr

/-- Modelled from the spec: what a tick or input handler returns
(section 4.2, Outcome). -/
inductive Outcome
  | Continue
  | Redraw
  | Transition (target : FlowId) (payload : Option Payload)
  deriving DecidableEq, Repr

/-- Modelled from the spec: the answer of the Operation Bridge to a poll
(section 6). -/
inductive PollResult
  | Pending
  | Done (result : Nat)
  | Failed (error : Nat)
  deriving DecidableEq, Repr

/-- Modelled from the spec: the one fatal condition of section 7, with the
flow that made the request and the target it asked for. -/
inductive Fault
  | IllegalTransition (source target : FlowId)
  deriving DecidableEq, Repr

/-- Modelled from the spec: a call made by a flow hook to the Render Target
(draw) or to the Operation Bridge (section 6).  A handle is a natural number. -/
inductive Effect
  | draw (f : FlowId)
  | start_address_generation (handle : Nat)
  | start_signing (tx : Nat) (handle : Nat)
  | poll (handle : Nat)
  | cancel (handle : Nat)
  deriving DecidableEq, Repr

/-- Modelled from the spec: one entry of the observable record of a run: the
dispatcher invoked the enter or exit hook of a flow, or a hook made a call to
an external collaborator. -/
inductive Obs
  | enter (f : FlowId)
  | exit (f : FlowId)
  | effect (e : Effect)
  deriving DecidableEq, Repr

/-- Modelled from the spec: the legal-adjacency table of section 4.1. -/
def legal : FlowId → FlowId → Bool
  | FlowId.MainMenu, FlowId.GeneratingAddresses => true
  | FlowId.MainMenu, FlowId.UserConfirm => true
  | FlowId.GeneratingAddresses, FlowId.MainMenu => true
  | FlowId.UserConfirm, FlowId.Signing => true
  | FlowId.UserConfirm, FlowId.MainMenu => true
  | FlowId.Signing, FlowId.SignedSuccessfully => true
  | FlowId.Signing, FlowId.MainMenu => true
  | FlowId.SignedSuccessfully, FlowId.MainMenu => true
  | _, _ => false

/-- Modelled from the spec: the Flow Registry (sections 2 and 6), the
enter/tick/input/exit hooks of every flow over a flow state of type φ.  The
enter hook receives the payload and a fresh handle, the tick hook receives
the current answers of the Operation Bridge; every hook returns the calls it
makes to the external collaborators. -/
structure FlowRegistry (φ : Type) where
  enter : FlowId → Option Payload → Nat → φ × List Effect
  tick : FlowId → φ → (Nat → PollResult) → φ × List Effect × Outcome
  input : FlowId → Event → φ → φ × List Effect × Outcome
  exit : FlowId → φ → List Effect

/-- Modelled from the spec: the Dispatcher Context of section 3 (the active
FlowId with its FlowState, absent before the context is set up), the fatal
condition once one was signalled, and the observable record of the run. -/
structure Dispatcher (φ : Type) where
  current : Option (FlowId × φ)
  fault : Option Fault
  log : List Obs

/-- Modelled from the spec: the FlowId that is active, if any. -/
def activeFlow {φ : Type} (d : Dispatcher φ) : Option FlowId :=
  d.current.map Prod.fst

/-- Modelled from the spec: steps 3 and 4 of the transition protocol: the
target becomes the current flow, its initial state is built from the payload,
and its enter hook is invoked.  The fresh handle offered to the hook is the
length of the record so far. -/
def install {φ : Type} (R : FlowRegistry φ) (d : Dispatcher φ) (target : FlowId)
    (payload : Option Payload) : Dispatcher φ :=
  { current := some (target, (R.enter target payload d.log.length).1)
    fault := d.fault
    log := d.log ++ Obs.enter target ::
      (R.enter target payload d.log.length).2.map Obs.effect }

/-- Modelled from the spec: the transition protocol of section 4.1.  Step 1
invokes the exit hook of the current flow, step 2 validates the target
against the adjacency table and signals IllegalTransition when it is not a
legal successor, steps 3 and 4 install the target. -/
def transition {φ : Type} (R : FlowRegistry φ) (d : Dispatcher φ) (cur : FlowId) (st : φ)
    (target : FlowId) (payload : Option Payload) : Dispatcher φ :=
  if legal cur target = true then
    install R
      { current := d.current, fault := d.fault
        log := d.log ++ Obs.exit cur :: (R.exit cur st).map Obs.effect }
      target payload
  else
    { current := d.current
      fault := some (Fault.IllegalTransition cur target)
      log := d.log ++ Obs.exit cur :: (R.exit cur st).map Obs.effect }

/-- Modelled from the spec: what the dispatcher does with the Outcome of a
handler of the flow cur (section 4.1): nothing, a re-render, or the
transition protocol. -/
def dispatch {φ : Type} (R : FlowRegistry φ) (d : Dispatcher φ) (cur : FlowId) (st : φ) :
    Outcome → Dispatcher φ
  | Outcome.Continue => d
  | Outcome.Redraw =>
    { current := d.current, fault := d.fault
      log := d.log ++ [Obs.effect (Effect.draw cur)] }
  | Outcome.Transition target payload => transition R d cur st target payload

/-- Modelled from the spec: flow_init, the initialisation of the flow engine,
is missing from ui.c; the Dispatcher Context is created at init (section 3):
no flow is installed yet and no fatal condition is pending. -/
def flow_init {φ : Type} (d : Dispatcher φ) : Dispatcher φ :=
  { current := none, fault := none, log := d.log }

/-- Modelled from the spec: flow_main_menu, the entry of the Main Menu flow,
is missing from ui.c; it installs the Main Menu flow as current, invoking its
enter hook (section 4.1, init). -/
def flow_main_menu {φ : Type} (R : FlowRegistry φ) (d : Dispatcher φ) : Dispatcher φ :=
  install R d FlowId.MainMenu none

/-- Modelled from the spec: flow_timer_event is missing from ui.c; it forwards
one tick to the tick handler of the active flow and acts on its Outcome
(section 4.1, timer_tick).  After a fatal condition flow processing is halted
(section 7). -/
def flow_timer_event {φ : Type} (R : FlowRegistry φ) (bridge : Nat → PollResult)
    (d : Dispatcher φ) : Dispatcher φ :=
  match d.fault, d.current with
  | none, some (cur, st) =>
    dispatch R
      { current := some (cur, (R.tick cur st bridge).1), fault := none
        log := d.log ++ (R.tick cur st bridge).2.1.map Obs.effect }
      cur (R.tick cur st bridge).1 (R.tick cur st bridge).2.2
  | _, _ => d

/-- Modelled from the spec: the input call has no entry point in ui.c; it
forwards a user action to the input handler of the active flow and acts on
its Outcome (section 4.1, input). -/
def flow_input {φ : Type} (R : FlowRegistry φ) (e : Event) (d : Dispatcher φ) : Dispatcher φ :=
  match d.fault, d.current with
  | none, some (cur, st) =>
    dispatch R
      { current := some (cur, (R.input cur e st).1), fault := none
        log := d.log ++ (R.input cur e st).2.1.map Obs.effect }
      cur (R.input cur e st).1 (R.input cur e st).2.2
  | _, _ => d

/-- Modelled from the spec: the flow engine handed to ui.c, for a registry and
for the answers the Operation Bridge gives at the time of the call. -/
def engine {φ : Type} (R : FlowRegistry φ) (bridge : Nat → PollResult) :
    Ui.FlowApi (Dispatcher φ) :=
  { flow_init := flow_init
    flow_main_menu := flow_main_menu R
    flow_timer_event := flow_timer_event R bridge }

/-- The calls the device runtime can make: the three entry points of ui.c and
the input call of the specification. -/
inductive LifecycleCall
  | init
  | reset
  | timer_tick
  | input (e : Event)
  deriving DecidableEq, Repr

/-- One stimulus of a run: a call, together with the answers the Operation
Bridge would give to a poll at that moment. -/
structure Stimulus where
  bridge : Nat → PollResult
  call : LifecycleCall

/-- One step of a run.  The three lifecycle calls go through the entry points
of ui.c; the input call goes to the modelled input routine. -/
def step {φ : Type} (R : FlowRegistry φ) (m : Ui.Machine (Dispatcher φ)) (s : Stimulus) :
    Ui.Machine (Dispatcher φ) :=
  match s.call with
  | LifecycleCall.init => Ui.ui_init (engine R s.bridge) m
  | LifecycleCall.reset => Ui.ui_reset (engine R s.bridge) m
  | LifecycleCall.timer_tick => Ui.ui_timer_event (engine R s.bridge) m
  | LifecycleCall.input e => { flow := flow_input R e m.flow, calls := m.calls }

/-- A run: the stimuli are applied one after the other. -/
def run {φ : Type} (R : FlowRegistry φ) (m : Ui.Machine (Dispatcher φ)) (ss : List Stimulus) :
    Ui.Machine (Dispatcher φ) :=
  ss.foldl (step R) m

/-- The observations a step adds to the record. -/
def newObs {φ : Type} (R : FlowRegistry φ) (m : Ui.Machine (Dispatcher φ)) (s : Stimulus) :
    List Obs :=
  (step R m s).flow.log.drop m.flow.log.length

/-- Modelled from the spec: what the specification leaves to the surroundings
of the five flows: the number of Main Menu items, which of them is the Send
item, the transaction that is pending when Send is chosen, and the number N
of ticks after which SignedSuccessfully times out. -/
structure Config where
  menuItems : Nat
  sendItem : Nat → Bool
  pendingTx : Nat
  ackTicks : Nat

/-- Modelled from the spec: the FlowState of each of the five flows
(section 3): the highlighted menu item and the payload on display, the handle
of the operation in flight, the transaction on display and its page, the
tick counter and the result on display. -/
inductive FlowState
  | mainMenu (sel : Nat) (shown : Option Payload)
  | generatingAddresses (handle : Option Nat)
  | userConfirm (tx : Option Nat) (page : Nat)
  | signing (handle : Option Nat)
  | signedSuccessfully (ticks : Nat) (shown : Option Payload)
  deriving DecidableEq, Repr

/-- Modelled from the spec: the enter hooks of section 4.2.  Every flow
renders on entry; GeneratingAddresses starts the address derivation, Signing
starts the signing of the transaction it was handed. -/
def specEnter : FlowId → Option Payload → Nat → FlowState × List Effect
  | FlowId.MainMenu, p, _ =>
    (FlowState.mainMenu 0 p, [Effect.draw FlowId.MainMenu])
  | FlowId.GeneratingAddresses, _, h =>
    (FlowState.generatingAddresses (some h),
      [Effect.start_address_generation h, Effect.draw FlowId.GeneratingAddresses])
  | FlowId.UserConfirm, some (Payload.transaction tx), _ =>
    (FlowState.userConfirm (some tx) 0, [Effect.draw FlowId.UserConfirm])
  | FlowId.UserConfirm, _, _ =>
    (FlowState.userConfirm none 0, [Effect.draw FlowId.UserConfirm])
  | FlowId.Signing, some (Payload.transaction tx), h =>
    (FlowState.signing (some h), [Effect.start_signing tx h, Effect.draw FlowId.Signing])
  | FlowId.Signing, _, _ =>
    (FlowState.signing none, [Effect.draw FlowId.Signing])
  | FlowId.SignedSuccessfully, p, _ =>
    (FlowState.signedSuccessfully 0 p, [Effect.draw FlowId.SignedSuccessfully])

/-- Modelled from the spec: the tick handlers of section 4.2.
GeneratingAddresses and Signing poll their operation, SignedSuccessfully
counts up to its timeout, the other flows do nothing on a tick. -/
def specTick (cfg : Config) : FlowId → FlowState → (Nat → PollResult) →
    FlowState × List Effect × Outcome
  | FlowId.GeneratingAddresses, FlowState.generatingAddresses (some h), bridge =>
    match bridge h with
    | PollResult.Pending =>
      (FlowState.generatingAddresses (some h), [Effect.poll h], Outcome.Continue)
    | PollResult.Done r =>
      (FlowState.generatingAddresses none, [Effect.poll h],
        Outcome.Transition FlowId.MainMenu (some (Payload.addresses r)))
    | PollResult.Failed e =>
      (FlowState.generatingAddresses none, [Effect.poll h],
        Outcome.Transition FlowId.MainMenu (some (Payload.error e)))
  | FlowId.Signing, FlowState.signing (some h), bridge =>
    match bridge h with
    | PollResult.Pending =>
      (FlowState.signing (some h), [Effect.poll h], Outcome.Continue)
    | PollResult.Done r =>
      (FlowState.signing none, [Effect.poll h],
        Outcome.Transition FlowId.SignedSuccessfully (some (Payload.signature r)))
    | PollResult.Failed e =>
      (FlowState.signing none, [Effect.poll h],
        Outcome.Transition FlowId.MainMenu (some (Payload.error e)))
  | FlowId.SignedSuccessfully, FlowState.signedSuccessfully n p, _ =>
    if cfg.ackTicks ≤ n + 1 then
      (FlowState.signedSuccessfully (n + 1) p, [], Outcome.Transition FlowId.MainMenu none)
    else
      (FlowState.signedSuccessfully (n + 1) p, [], Outcome.Continue)
  | _, st, _ => (st, [], Outcome.Continue)

/-- Modelled from the spec: the input handlers of section 4.2.  An input that
is not meaningful in the current flow returns Continue (section 7,
InvalidInput). -/
def specInput (cfg : Config) : FlowId → Event → FlowState → FlowState × List Effect × Outcome
  | FlowId.MainMenu, Event.Up, FlowState.mainMenu sel p =>
    (FlowState.mainMenu ((sel + cfg.menuItems - 1) % cfg.menuItems) p, [], Outcome.Redraw)
  | FlowId.MainMenu, Event.Down, FlowState.mainMenu sel p =>
    (FlowState.mainMenu ((sel + 1) % cfg.menuItems) p, [], Outcome.Redraw)
  | FlowId.MainMenu, Event.Confirm, FlowState.mainMenu sel p =>
    if cfg.sendItem sel = true then
      (FlowState.mainMenu sel p, [],
        Outcome.Transition FlowId.UserConfirm (some (Payload.transaction cfg.pendingTx)))
    else
      (FlowState.mainMenu sel p, [], Outcome.Transition FlowId.GeneratingAddresses none)
  | FlowId.GeneratingAddresses, Event.Cancel, FlowState.generatingAddresses (some h) =>
    (FlowState.generatingAddresses none, [Effect.cancel h],
      Outcome.Transition FlowId.MainMenu none)
  | FlowId.GeneratingAddresses, Event.Cancel, FlowState.generatingAddresses none =>
    (FlowState.generatingAddresses none, [], Outcome.Transition FlowId.MainMenu none)
  | FlowId.UserConfirm, Event.Up, FlowState.userConfirm tx page =>
    (FlowState.userConfirm tx ((page + 2) % 3), [], Outcome.Redraw)
  | FlowId.UserConfirm, Event.Down, FlowState.userConfirm tx page =>
    (FlowState.userConfirm tx ((page + 1) % 3), [], Outcome.Redraw)
  | FlowId.UserConfirm, Event.Confirm, FlowState.userConfirm (some tx) page =>
    (FlowState.userConfirm (some tx) page, [],
      Outcome.Transition FlowId.Signing (some (Payload.transaction tx)))
  | FlowId.UserConfirm, Event.Cancel, FlowState.userConfirm tx page =>
    (FlowState.userConfirm tx page, [], Outcome.Transition FlowId.MainMenu none)
  | FlowId.Signing, Event.Cancel, FlowState.signing (some h) =>
    (FlowState.signing none, [Effect.cancel h], Outcome.Transition FlowId.MainMenu none)
  | FlowId.Signing, Event.Cancel, FlowState.signing none =>
    (FlowState.signing none, [], Outcome.Transition FlowId.MainMenu none)
  | FlowId.SignedSuccessfully, _, st =>
    (st, [], Outcome.Transition FlowId.MainMenu none)
  | _, _, st => (st, [], Outcome.Continue)

/-- Modelled from the spec: the exit hooks: a flow that still holds the handle
of an operation in flight hands it to the Operation Bridge for cancellation
(section 4.1, step 1). -/
def specExit : FlowId → FlowState → List Effect
  | FlowId.GeneratingAddresses, FlowState.generatingAddresses (some h) => [Effect.cancel h]
  | FlowId.Signing, FlowState.signing (some h) => [Effect.cancel h]
  | _, _ => []

/-- Modelled from the spec: the registry of the five flows of section 4.2. -/
def specFlows (cfg : Config) : FlowRegistry FlowState :=
  { enter := specEnter
    tick := specTick cfg
    input := specInput cfg
    exit := specExit }

/-- The transaction a record entry starts the signing of, if it is a call of
start_signing. -/
def signingTx : Obs → Option Nat
  | Obs.effect (Effect.start_signing tx _) => some tx
  | _ => none

/-- The transactions whose signing was started, in the order of the record. -/
def signingStarts (log : List Obs) : List Nat :=
  log.filterMap signingTx

/-- A menu of two items, the second of which is Send; the pending transaction
is number 7 and SignedSuccessfully times out after 3 ticks. -/
def demoConfig : Config :=
  { menuItems := 2, sendItem := fun i => i == 1, pendingTx := 7, ackTicks := 3 }

/-- An Operation Bridge whose operations are all still pending. -/
def pendingBridge : Nat → PollResult :=
  fun _ => PollResult.Pending

/-- A machine in which nothing has run yet. -/
def bootMachine : Ui.Machine (Dispatcher FlowState) :=
  { flow := { current := none, fault := none, log := [] }, calls := [] }

/-- A machine whose active flow is Signing, with operation 4 in flight. -/
def signingMachine : Ui.Machine (Dispatcher FlowState) :=
  { flow := { current := some (FlowId.Signing, FlowState.signing (some 4))
              fault := none, log := [] }
    calls := [] }

/-- A machine whose active flow is UserConfirm, showing transaction 7. -/
def confirmMachine : Ui.Machine (Dispatcher FlowState) :=
  { flow := { current := some (FlowId.UserConfirm, FlowState.userConfirm (some 7) 0)
              fault := none, log := [] }
    calls := [] }

/-- A malformed registry for tests: every tick and every input of every flow
asks for a transition to Signing. -/
def rogueFlows : FlowRegistry Unit :=
  { enter := fun _ _ _ => ((), [])
    tick := fun _ _ _ => ((), [], Outcome.Transition FlowId.Signing none)
    input := fun _ _ _ => ((), [], Outcome.Transition FlowId.Signing none)
    exit := fun _ _ => [] }

/-- A machine over the malformed registry whose active flow is Main Menu. -/
def rogueMachine : Ui.Machine (Dispatcher Unit) :=
  { flow := { current := some (FlowId.MainMenu, ()), fault := none, log := [] }
    calls := [] }

end FlowSpec

/-! ## Facts about the entry points of ui.c -/

namespace Ui

open FlowSpec

/-- C5: ui_timer_event forwards exactly one tick: it invokes flow_timer_event
once and nothing else, so the engine state it leaves is flow_timer_event of
the engine state it found; n calls in a row are n applications of
flow_timer_event, recorded as n invocations. -/
theorem ui_timer_event_forwards_each_tick {σ : Type} (F : FlowApi σ) (m : Machine σ) :
    ui_timer_event F m =
        { flow := F.flow_timer_event m.flow, calls := m.calls ++ [Call.flow_timer_event] } ∧
      ∀ n : Nat, (ui_timer_event F)^[n] m =
        { flow := F.flow_timer_event^[n] m.flow
          calls := m.calls ++ List.replicate n Call.flow_timer_event } := by
  refine ⟨rfl, ?_⟩
  intro n
  induction n with
  | zero => simp
  | succ k ih =>
    rw [Function.iterate_succ_apply', ih, Function.iterate_succ_apply', List.replicate_succ']
    simp [ui_timer_event, call_flow_timer_event]

/-- C8: ui_reset is an empty stub: it returns the machine it was given, so the
engine state (active flow, flow state, pending operation) is untouched and no
callee is invoked. -/
theorem ui_reset_is_empty_stub {σ : Type} (F : FlowApi σ) (m : Machine σ) :
    ui_reset F m = m ∧ (ui_reset F m).flow = m.flow ∧ (ui_reset F m).calls = m.calls :=
  ⟨rfl, rfl, rfl⟩

/-- C9: ui_init performs exactly two callee invocations, flow_init first and
flow_main_menu second: the engine state it leaves is flow_main_menu applied
to flow_init of the engine state it found, and the record of invocations
grows by flow_init, flow_main_menu in that order. -/
theorem ui_init_is_flow_init_then_flow_main_menu {σ : Type} (F : FlowApi σ) (m : Machine σ) :
    ui_init F m =
      { flow := F.flow_main_menu (F.flow_init m.flow)
        calls := m.calls ++ [Call.flow_init, Call.flow_main_menu] } := by
  simp [ui_init, call_flow_main_menu, call_flow_init]

/-- C1: provided flow_main_menu installs Main Menu as the active flow, the
active flow after ui_init is Main Menu whatever the state before: the last
callee ui_init invokes is flow_main_menu, and the engine state ui_init leaves
is the one flow_main_menu produced. -/
theorem ui_init_leaves_main_menu_active {σ : Type} (F : FlowApi σ)
    (active : σ → Option FlowId)
    (h : ∀ s, active (F.flow_main_menu s) = some FlowId.MainMenu) (m : Machine σ) :
    (ui_init F m).flow = F.flow_main_menu (call_flow_init F m).flow ∧
      (ui_init F m).calls.getLast? = some Call.flow_main_menu ∧
      active (ui_init F m).flow = some FlowId.MainMenu := by
  refine ⟨rfl, ?_, h _⟩
  simp [ui_init, call_flow_main_menu]

/-- Witness of C1: the modelled flow engine installs Main Menu in
flow_main_menu, and ui_init run while Signing is active leaves Main Menu
active. -/
theorem ui_init_leaves_main_menu_active_witness :
    (∀ s, activeFlow ((engine (specFlows demoConfig) pendingBridge).flow_main_menu s) =
        some FlowId.MainMenu) ∧
      activeFlow signingMachine.flow = some FlowId.Signing ∧
      activeFlow (ui_init (engine (specFlows demoConfig) pendingBridge) signingMachine).flow =
        some FlowId.MainMenu :=
  ⟨fun _ => rfl, rfl,
    (ui_init_leaves_main_menu_active (engine (specFlows demoConfig) pendingBridge) activeFlow
      (fun _ => rfl) signingMachine).2.2⟩

/-- Counterexample to C2: on the machine in which nothing has run, two calls
of ui_init leave four callee invocations on record and one call leaves two,
so the second call is not a no-op. -/
theorem ui_init_twice_differs_from_once :
    ¬ ((ui_init (engine (specFlows demoConfig) pendingBridge)
          (ui_init (engine (specFlows demoConfig) pendingBridge) bootMachine)).flow =
        (ui_init (engine (specFlows demoConfig) pendingBridge) bootMachine).flow ∧
      (ui_init (engine (specFlows demoConfig) pendingBridge)
          (ui_init (engine (specFlows demoConfig) pendingBridge) bootMachine)).calls =
        (ui_init (engine (specFlows demoConfig) pendingBridge) bootMachine).calls) := by
  intro h
  exact absurd h.2 (by decide)

/-- C2, amended: ui_init has no guard.  A second call invokes flow_init and
then flow_main_menu once more: the record of invocations after two calls is
the record after one call followed by flow_init, flow_main_menu, and the
engine state after two calls is flow_main_menu of flow_init of the engine
state after one call.  What stays the same is every observation of the engine
state that flow_init followed by flow_main_menu fixes whatever the state
before. -/
theorem ui_init_second_call_runs_again {σ : Type} (F : FlowApi σ) (m : Machine σ) :
    (ui_init F (ui_init F m)).calls =
        (ui_init F m).calls ++ [Call.flow_init, Call.flow_main_menu] ∧
      (ui_init F (ui_init F m)).flow =
        F.flow_main_menu (F.flow_init (ui_init F m).flow) ∧
      ∀ (α : Type) (obs : σ → α),
        (∀ s t, obs (F.flow_main_menu (F.flow_init s)) =
          obs (F.flow_main_menu (F.flow_init t))) →
        obs (ui_init F (ui_init F m)).flow = obs (ui_init F m).flow := by
  refine ⟨?_, ?_, ?_⟩
  · simp [ui_init, call_flow_main_menu, call_flow_init]
  · simp [ui_init, call_flow_main_menu, call_flow_init]
  · intro α obs h
    exact h _ _

/-- Witness of the amended C2: in the modelled flow engine flow_init followed
by flow_main_menu always leaves the same Dispatcher Context, Main Menu in its
initial state and no fault, so that context is the same after two calls of
ui_init as after one, while the record of invocations has grown. -/
theorem ui_init_second_call_runs_again_witness :
    (∀ s t : Dispatcher FlowState,
        ((engine (specFlows demoConfig) pendingBridge).flow_main_menu
            ((engine (specFlows demoConfig) pendingBridge).flow_init s)).current =
          ((engine (specFlows demoConfig) pendingBridge).flow_main_menu
            ((engine (specFlows demoConfig) pendingBridge).flow_init t)).current) ∧
      (ui_init (engine (specFlows demoConfig) pendingBridge)
          (ui_init (engine (specFlows demoConfig) pendingBridge) signingMachine)).flow.current =
        (ui_init (engine (specFlows demoConfig) pendingBridge) signingMachine).flow.current ∧
      (ui_init (engine (specFlows demoConfig) pendingBridge)
          (ui_init (engine (specFlows demoConfig) pendingBridge) signingMachine)).calls =
        [Call.flow_init, Call.flow_main_menu, Call.flow_init, Call.flow_main_menu] :=
  ⟨fun _ _ => rfl,
    (ui_init_second_call_runs_again (engine (specFlows demoConfig) pendingBridge)
      signingMachine).2.2 _ (fun d => d.current) (fun _ _ => rfl),
    (ui_init_second_call_runs_again (engine (specFlows demoConfig) pendingBridge)
      signingMachine).1⟩

/-- Counterexample to C3: with Signing active and an operation in flight,
ui_reset leaves Signing active and records no exit hook. -/
theorem ui_reset_does_not_return_to_main_menu :
    ¬ (activeFlow (ui_reset (engine (specFlows demoConfig) pendingBridge) signingMachine).flow =
          some FlowId.MainMenu ∧
        Obs.exit FlowId.Signing ∈
          (ui_reset (engine (specFlows demoConfig) pendingBridge) signingMachine).flow.log) := by
  decide

/-- C3, amended: after ui_reset the active flow is the flow that was active
before the call (Main Menu only if it already was); the flow state with any
operation in flight is kept, no exit hook is recorded and no callee is
invoked. -/
theorem ui_reset_keeps_active_flow {φ : Type} (F : FlowApi (Dispatcher φ))
    (m : Machine (Dispatcher φ)) :
    activeFlow (ui_reset F m).flow = activeFlow m.flow ∧
      (ui_reset F m).flow.current = m.flow.current ∧
      (ui_reset F m).flow.log = m.flow.log ∧
      (ui_reset F m).calls = m.calls :=
  ⟨rfl, rfl, rfl, rfl⟩

/-- C4: ui_reset is idempotent: two calls in a row leave the same machine as
one call.  The engine state, in which the modelled engine keeps its record of
hook invocations, and the record of callee invocations are both the same, so
the second call invokes no further hook. -/
theorem ui_reset_twice_is_once {σ : Type} (F : FlowApi σ) (m : Machine σ) :
    ui_reset F (ui_reset F m) = ui_reset F m ∧
      (ui_reset F (ui_reset F m)).flow = (ui_reset F m).flow ∧
      (ui_reset F (ui_reset F m)).calls = (ui_reset F m).calls :=
  ⟨rfl, rfl, rfl⟩

end Ui

/-! ## Facts about runs over the modelled flow engine -/

namespace FlowSpec

open Ui

theorem legal_into_main_menu (f : FlowId) :
    FlowId.MainMenu = f ∨ legal f FlowId.MainMenu = true := by
  cases f <;> simp [legal]

theorem dispatch_active {φ : Type} (R : FlowRegistry φ) (d : Dispatcher φ) (cur : FlowId)
    (st : φ) (o : Outcome) (h : activeFlow d = some cur) :
    ∃ g, activeFlow (dispatch R d cur st o) = some g ∧ (g = cur ∨ legal cur g = true) := by
  cases o with
  | Continue => exact ⟨cur, h, Or.inl rfl⟩
  | Redraw => exact ⟨cur, h, Or.inl rfl⟩
  | Transition target payload =>
    by_cases hl : legal cur target = true
    · exact ⟨target, by simp [dispatch, transition, hl, install, activeFlow], Or.inr hl⟩
    · exact ⟨cur, by simpa [dispatch, transition, hl, activeFlow] using h, Or.inl rfl⟩

theorem flow_timer_event_active {φ : Type} (R : FlowRegistry φ) (b : Nat → PollResult)
    (d : Dispatcher φ) (f : FlowId) (h : activeFlow d = some f) :
    ∃ g, activeFlow (flow_timer_event R b d) = some g ∧ (g = f ∨ legal f g = true) := by
  obtain ⟨current, fault, log⟩ := d
  cases fault with
  | some e => exact ⟨f, by simpa [flow_timer_event] using h, Or.inl rfl⟩
  | none =>
    cases current with
    | none => simp [activeFlow] at h
    | some c =>
      obtain ⟨cur, st⟩ := c
      have hc : cur = f := by simpa [activeFlow] using h
      subst hc
      exact dispatch_active R _ cur _ _ rfl

theorem flow_input_active {φ : Type} (R : FlowRegistry φ) (e : Event)
    (d : Dispatcher φ) (f : FlowId) (h : activeFlow d = some f) :
    ∃ g, activeFlow (flow_input R e d) = some g ∧ (g = f ∨ legal f g = true) := by
  obtain ⟨current, fault, log⟩ := d
  cases fault with
  | some e => exact ⟨f, by simpa [flow_input] using h, Or.inl rfl⟩
  | none =>
    cases current with
    | none => simp [activeFlow] at h
    | some c =>
      obtain ⟨cur, st⟩ := c
      have hc : cur = f := by simpa [activeFlow] using h
      subst hc
      exact dispatch_active R _ cur _ _ rfl

theorem step_active {φ : Type} (R : FlowRegistry φ) (m : Machine (Dispatcher φ))
    (s : Stimulus) (f : FlowId) (h : activeFlow m.flow = some f) :
    ∃ g, activeFlow (step R m s).flow = some g ∧ (g = f ∨ legal f g = true) := by
  obtain ⟨b, c⟩ := s
  cases c with
  | init => exact ⟨FlowId.MainMenu, rfl, legal_into_main_menu f⟩
  | reset => exact ⟨f, h, Or.inl rfl⟩
  | timer_tick => exact flow_timer_event_active R b m.flow f h
  | input e => exact flow_input_active R e m.flow f h

theorem dispatch_illegal {φ : Type} (R : FlowRegistry φ) (d : Dispatcher φ) (cur : FlowId)
    (st : φ) (t : FlowId) (p : Option Payload) (hl : legal cur t = false) :
    (dispatch R d cur st (Outcome.Transition t p)).fault =
        some (Fault.IllegalTransition cur t) ∧
      (dispatch R d cur st (Outcome.Transition t p)).current = d.current := by
  simp [dispatch, transition, hl]

theorem step_illegal {φ : Type} (R : FlowRegistry φ) (m : Machine (Dispatcher φ))
    (s : Stimulus) (cur : FlowId) (st : φ) (t : FlowId) (p : Option Payload)
    (hf : m.flow.fault = none) (hc : m.flow.current = some (cur, st))
    (hl : legal cur t = false)
    (hr : (s.call = LifecycleCall.timer_tick ∧
            (R.tick cur st s.bridge).2.2 = Outcome.Transition t p) ∨
          (∃ e, s.call = LifecycleCall.input e ∧
            (R.input cur e st).2.2 = Outcome.Transition t p)) :
    (step R m s).flow.fault = some (Fault.IllegalTransition cur t) ∧
      activeFlow (step R m s).flow = some cur := by
  obtain ⟨b, c⟩ := s
  obtain ⟨⟨current, fault, log⟩, calls⟩ := m
  simp only at hf hc
  subst hf hc
  rcases hr with ⟨hcall, ho⟩ | ⟨e, hcall, ho⟩
  · simp only at hcall ho
    subst hcall
    have := dispatch_illegal R
      { current := some (cur, (R.tick cur st b).1), fault := none
        log := log ++ (R.tick cur st b).2.1.map Obs.effect } cur (R.tick cur st b).1 t p hl
    simp only [step, ui_timer_event, call_flow_timer_event, engine, flow_timer_event, ho,
      activeFlow]
    rw [this.1, this.2]
    simp
  · simp only at hcall ho
    subst hcall
    have := dispatch_illegal R
      { current := some (cur, (R.input cur e st).1), fault := none
        log := log ++ (R.input cur e st).2.1.map Obs.effect } cur (R.input cur e st).1 t p hl
    simp only [step, flow_input, ho, activeFlow]
    rw [this.1, this.2]
    simp

/-- C6: in every run of lifecycle calls and inputs, over any registry of
flows, a step that begins with a flow active ends with a flow active, and the
new flow is either the old one or a legal successor of it in the adjacency
table (a transition is realised when the active FlowId changes from one
observation point to the next; ui_init called with Main Menu active installs
Main Menu again and changes nothing here).  A tick or input whose handler asks for a target that is not a legal
successor is reported as IllegalTransition and the active flow stays what it
was. -/
theorem realised_transitions_are_legal {φ : Type} (R : FlowRegistry φ)
    (m : Machine (Dispatcher φ)) (history : List Stimulus) (s : Stimulus) :
    (∀ f, activeFlow (run R m history).flow = some f →
        ∃ g, activeFlow (step R (run R m history) s).flow = some g ∧
          (g = f ∨ legal f g = true)) ∧
      (∀ cur st t p, (run R m history).flow.fault = none →
        (run R m history).flow.current = some (cur, st) →
        legal cur t = false →
        ((s.call = LifecycleCall.timer_tick ∧
            (R.tick cur st s.bridge).2.2 = Outcome.Transition t p) ∨
          (∃ e, s.call = LifecycleCall.input e ∧
            (R.input cur e st).2.2 = Outcome.Transition t p)) →
        (step R (run R m history) s).flow.fault = some (Fault.IllegalTransition cur t) ∧
          activeFlow (step R (run R m history) s).flow = some cur) :=
  ⟨fun f h => step_active R _ s f h,
    fun cur st t p hf hc hl hr => step_illegal R _ s cur st t p hf hc hl hr⟩

/-- Witness of C6: over the malformed registry, a tick in Main Menu asks for
Signing, which is not a legal successor of Main Menu; the request is reported
as IllegalTransition and Main Menu stays active. -/
theorem realised_transitions_are_legal_witness :
    activeFlow rogueMachine.flow = some FlowId.MainMenu ∧
      legal FlowId.MainMenu FlowId.Signing = false ∧
      (rogueFlows.tick FlowId.MainMenu () pendingBridge).2.2 =
        Outcome.Transition FlowId.Signing none ∧
      (step rogueFlows rogueMachine
          { bridge := pendingBridge, call := LifecycleCall.timer_tick }).flow.fault =
        some (Fault.IllegalTransition FlowId.MainMenu FlowId.Signing) ∧
      activeFlow (step rogueFlows rogueMachine
          { bridge := pendingBridge, call := LifecycleCall.timer_tick }).flow =
        some FlowId.MainMenu :=
  ⟨rfl, rfl, rfl,
    (realised_transitions_are_legal rogueFlows rogueMachine []
      { bridge := pendingBridge, call := LifecycleCall.timer_tick }).2
      FlowId.MainMenu () FlowId.Signing none rfl rfl rfl (Or.inl ⟨rfl, rfl⟩)⟩


theorem spec_input_new (cfg : Config) (e : Event) (d : Dispatcher FlowState) :
    (flow_input (specFlows cfg) e d).log =
        d.log ++ (flow_input (specFlows cfg) e d).log.drop d.log.length ∧
      ((Obs.enter FlowId.Signing ∈ (flow_input (specFlows cfg) e d).log.drop d.log.length ∨
          signingStarts ((flow_input (specFlows cfg) e d).log.drop d.log.length) ≠ []) →
        e = Event.Confirm ∧ d.fault = none ∧
          ∃ tx page, d.current = some (FlowId.UserConfirm, FlowState.userConfirm (some tx) page) ∧
            signingStarts ((flow_input (specFlows cfg) e d).log.drop d.log.length) = [tx] ∧
            activeFlow (flow_input (specFlows cfg) e d) = some FlowId.Signing) := by
  obtain ⟨current, fault, log⟩ := d
  cases fault with
  | some f => simp [flow_input, signingStarts]
  | none =>
    cases current with
    | none => simp [flow_input, signingStarts]
    | some c =>
      obtain ⟨cur, st⟩ := c
      rcases st with ⟨sel, p⟩ | ⟨_ | h⟩ | ⟨_ | tx, page⟩ | ⟨_ | h⟩ | ⟨n, p⟩ <;>
        cases cur <;> cases e <;> simp only [flow_input, specFlows, specInput] <;>
        (try split_ifs) <;>
        simp [flow_input, specFlows, specInput, dispatch, transition, install, legal,
          specEnter, specExit, signingStarts, signingTx, activeFlow]

theorem spec_timer_new (cfg : Config) (b : Nat → PollResult) (d : Dispatcher FlowState) :
    (flow_timer_event (specFlows cfg) b d).log =
        d.log ++ (flow_timer_event (specFlows cfg) b d).log.drop d.log.length ∧
      Obs.enter FlowId.Signing ∉ (flow_timer_event (specFlows cfg) b d).log.drop d.log.length ∧
      signingStarts ((flow_timer_event (specFlows cfg) b d).log.drop d.log.length) = [] := by
  obtain ⟨current, fault, log⟩ := d
  cases fault with
  | some f => simp [flow_timer_event, signingStarts]
  | none =>
    cases current with
    | none => simp [flow_timer_event, signingStarts]
    | some c =>
      obtain ⟨cur, st⟩ := c
      rcases st with ⟨sel, p⟩ | ⟨_ | h⟩ | ⟨_ | tx, page⟩ | ⟨_ | h⟩ | ⟨n, p⟩ <;>
        cases cur <;> simp only [flow_timer_event, specFlows, specTick] <;>
        (try split_ifs) <;> (try cases hb : b h) <;>
        simp [dispatch, transition, install, legal,
          specEnter, specExit, signingStarts, signingTx, activeFlow]

theorem spec_init_new (cfg : Config) (d : Dispatcher FlowState) :
    (flow_main_menu (specFlows cfg) (flow_init d)).log =
      d.log ++ [Obs.enter FlowId.MainMenu, Obs.effect (Effect.draw FlowId.MainMenu)] := by
  simp [flow_main_menu, flow_init, install, specFlows, specEnter]

theorem spec_cancel_in_user_confirm (cfg : Config) (d : Dispatcher FlowState)
    (tx : Option Nat) (page : Nat) (hf : d.fault = none)
    (hc : d.current = some (FlowId.UserConfirm, FlowState.userConfirm tx page)) :
    activeFlow (flow_input (specFlows cfg) Event.Cancel d) = some FlowId.MainMenu ∧
      Obs.enter FlowId.Signing ∉
        (flow_input (specFlows cfg) Event.Cancel d).log.drop d.log.length ∧
      signingStarts ((flow_input (specFlows cfg) Event.Cancel d).log.drop d.log.length) = [] := by
  obtain ⟨current, fault, log⟩ := d
  simp only at hf hc
  subst hf hc
  simp [flow_input, specFlows, specInput, dispatch, transition, install, legal,
    specEnter, specExit, signingStarts, signingTx, activeFlow]

theorem spec_step_new (cfg : Config) (m : Machine (Dispatcher FlowState)) (s : Stimulus) :
    (step (specFlows cfg) m s).flow.log = m.flow.log ++ newObs (specFlows cfg) m s ∧
      ((Obs.enter FlowId.Signing ∈ newObs (specFlows cfg) m s ∨
          signingStarts (newObs (specFlows cfg) m s) ≠ []) →
        s.call = LifecycleCall.input Event.Confirm ∧ m.flow.fault = none ∧
          ∃ tx page,
            m.flow.current = some (FlowId.UserConfirm, FlowState.userConfirm (some tx) page) ∧
            signingStarts (newObs (specFlows cfg) m s) = [tx] ∧
            activeFlow (step (specFlows cfg) m s).flow = some FlowId.Signing) := by
  obtain ⟨b, c⟩ := s
  cases c with
  | init =>
    have h := spec_init_new cfg m.flow
    have hs : (step (specFlows cfg) m { bridge := b, call := LifecycleCall.init }).flow.log =
        m.flow.log ++ [Obs.enter FlowId.MainMenu, Obs.effect (Effect.draw FlowId.MainMenu)] := h
    simp [newObs, hs, signingStarts, signingTx]
  | reset =>
    simp [newObs, step, ui_reset, signingStarts]
  | timer_tick =>
    have h := spec_timer_new cfg b m.flow
    refine ⟨h.1, ?_⟩
    intro hh
    rcases hh with hh | hh
    · exact absurd hh h.2.1
    · exact absurd h.2.2 hh
  | input e =>
    have h := spec_input_new cfg e m.flow
    refine ⟨h.1, ?_⟩
    intro hh
    obtain ⟨he, hf, tx, page, hc, hs, ha⟩ := h.2 hh
    exact ⟨by rw [he], hf, tx, page, hc, hs, ha⟩

/-- C7: over the five flows of the specification, in every run a step that
enters the Signing flow or calls start_signing is an input Confirm received
while UserConfirm is active and showing a transaction, and the one signing it
starts is the signing of that transaction.  Hence a step that is ui_init,
ui_reset or a timer tick starts no signing, and an input Cancel received in
UserConfirm leaves Main Menu active with no signing started. -/
theorem signing_starts_only_after_confirm (cfg : Config)
    (m : Machine (Dispatcher FlowState)) (history : List Stimulus) (s : Stimulus) :
    ((step (specFlows cfg) (run (specFlows cfg) m history) s).flow.log =
        (run (specFlows cfg) m history).flow.log ++
          newObs (specFlows cfg) (run (specFlows cfg) m history) s) ∧
      ((Obs.enter FlowId.Signing ∈ newObs (specFlows cfg) (run (specFlows cfg) m history) s ∨
          signingStarts (newObs (specFlows cfg) (run (specFlows cfg) m history) s) ≠ []) →
        s.call = LifecycleCall.input Event.Confirm ∧
          (run (specFlows cfg) m history).flow.fault = none ∧
          ∃ tx page,
            (run (specFlows cfg) m history).flow.current =
                some (FlowId.UserConfirm, FlowState.userConfirm (some tx) page) ∧
              signingStarts (newObs (specFlows cfg) (run (specFlows cfg) m history) s) = [tx] ∧
              activeFlow (step (specFlows cfg) (run (specFlows cfg) m history) s).flow =
                some FlowId.Signing) ∧
      ((∀ e, s.call ≠ LifecycleCall.input e) →
        Obs.enter FlowId.Signing ∉ newObs (specFlows cfg) (run (specFlows cfg) m history) s ∧
          signingStarts (newObs (specFlows cfg) (run (specFlows cfg) m history) s) = []) ∧
      (∀ tx page, s.call = LifecycleCall.input Event.Cancel →
        (run (specFlows cfg) m history).flow.fault = none →
        (run (specFlows cfg) m history).flow.current =
            some (FlowId.UserConfirm, FlowState.userConfirm tx page) →
        activeFlow (step (specFlows cfg) (run (specFlows cfg) m history) s).flow =
            some FlowId.MainMenu ∧
          Obs.enter FlowId.Signing ∉
            newObs (specFlows cfg) (run (specFlows cfg) m history) s ∧
          signingStarts (newObs (specFlows cfg) (run (specFlows cfg) m history) s) = []) := by
  have h := spec_step_new cfg (run (specFlows cfg) m history) s
  refine ⟨h.1, h.2, ?_, ?_⟩
  · intro hne
    by_contra hcon
    have hor : Obs.enter FlowId.Signing ∈
          newObs (specFlows cfg) (run (specFlows cfg) m history) s ∨
        signingStarts (newObs (specFlows cfg) (run (specFlows cfg) m history) s) ≠ [] := by
      by_contra hno
      exact hcon ⟨fun hm => hno (Or.inl hm), by
        by_contra hs
        exact hno (Or.inr hs)⟩
    exact hne Event.Confirm (h.2 hor).1
  · intro tx page hcall hf hc
    obtain ⟨b, c⟩ := s
    simp only at hcall
    subst hcall
    exact spec_cancel_in_user_confirm cfg _ tx page hf hc

/-- Witness of C7: with UserConfirm showing transaction 7, an input Confirm
enters Signing and starts the signing of transaction 7; an input Cancel
leaves Main Menu active and starts no signing. -/
theorem signing_starts_only_after_confirm_witness :
    (Obs.enter FlowId.Signing ∈ newObs (specFlows demoConfig) confirmMachine
        { bridge := pendingBridge, call := LifecycleCall.input Event.Confirm }) ∧
      signingStarts (newObs (specFlows demoConfig) confirmMachine
        { bridge := pendingBridge, call := LifecycleCall.input Event.Confirm }) = [7] ∧
      (∃ tx page,
        confirmMachine.flow.current =
            some (FlowId.UserConfirm, FlowState.userConfirm (some tx) page) ∧
          signingStarts (newObs (specFlows demoConfig) confirmMachine
            { bridge := pendingBridge, call := LifecycleCall.input Event.Confirm }) = [tx] ∧
          activeFlow (step (specFlows demoConfig) confirmMachine
            { bridge := pendingBridge, call := LifecycleCall.input Event.Confirm }).flow =
              some FlowId.Signing) ∧
      (activeFlow (step (specFlows demoConfig) confirmMachine
          { bridge := pendingBridge, call := LifecycleCall.input Event.Cancel }).flow =
            some FlowId.MainMenu ∧
        Obs.enter FlowId.Signing ∉ newObs (specFlows demoConfig) confirmMachine
          { bridge := pendingBridge, call := LifecycleCall.input Event.Cancel } ∧
        signingStarts (newObs (specFlows demoConfig) confirmMachine
          { bridge := pendingBridge, call := LifecycleCall.input Event.Cancel }) = []) :=
  ⟨by decide, by decide,
    ((signing_starts_only_after_confirm demoConfig confirmMachine []
      { bridge := pendingBridge, call := LifecycleCall.input Event.Confirm }).2.1
        (Or.inl (by decide))).2.2,
    (signing_starts_only_after_confirm demoConfig confirmMachine []
      { bridge := pendingBridge, call := LifecycleCall.input Event.Cancel }).2.2.2
        (some 7) 0 rfl rfl rfl⟩

end FlowSpec
